import Mathlib

/-!
Verification of the opssage capture state machine against its source.

The definitions below are a shallow embedding of the voice-capture client in
`src/frontend/src/App.tsx` (the current iteration) and, where noted, of the
earlier iteration of the same component preserved in `src/unnamed/part_002`.
React refs become fields of an explicit state record; functions that send
frames over the data channel return the new state together with a list of
observable effects (frames sent, frames queued, submissions handed to the
action bridge).  Network calls themselves (fetch in submitPingRequest) are out
of scope: the hand-off of the captured text to the bridge is the modelled
effect.
-/

/-- Whitespace test used by the embedding of the JS regexes `\s` and of
`String.prototype.trim`.  JS `\s` also matches `\f`, `\v` and unicode
spaces; the utterances this client ever sees are ASCII transcripts, for
which these four cases agree with the JS semantics.  All string helpers
below recurse structurally over character lists so that every proof can be
closed by kernel evaluation. -/
def isWsChar (c : Char) : Bool :=
  c = ' ' || c = '\t' || c = '\n' || c = '\r'

/-- Drop trailing whitespace of a character list. -/
def dropWsEnd (cs : List Char) : List Char :=
  (cs.reverse.dropWhile isWsChar).reverse

/-- Drop leading and trailing whitespace of a character list. -/
def trimChars (cs : List Char) : List Char :=
  dropWsEnd (cs.dropWhile isWsChar)

/-- Embedding of JS `value.trim()`. -/
def strTrim (s : String) : String :=
  String.mk (trimChars s.toList)

/-- Split a character list at the characters satisfying `sep`, keeping only
the non-empty pieces (the argument `acc` holds the current piece in
reverse).  This is the composition `split`-then-`filter(Boolean)` used at
both split sites of the source. -/
def wordsByAux (sep : Char → Bool) : List Char → List Char → List String
  | [], acc => if acc.isEmpty then [] else [String.mk acc.reverse]
  | c :: rest, acc =>
    if sep c then
      if acc.isEmpty then wordsByAux sep rest []
      else String.mk acc.reverse :: wordsByAux sep rest []
    else wordsByAux sep rest (c :: acc)

/-- The non-empty pieces of `s` between separator characters. -/
def wordsBy (sep : Char → Bool) (s : String) : List String :=
  wordsByAux sep s.toList []

/-- Join pieces with single spaces (JS `Array.prototype.join(' ')`). -/
def joinSpace : List String → String
  | [] => ""
  | [x] => x
  | x :: y :: rest => x ++ " " ++ joinSpace (y :: rest)

/-- One character step of the regex replace `/[^a-z0-9\s]/g -> ' '` in
`normaliseUtterance` (App.tsx line 442). -/
def keepLowerAlnumWs (c : Char) : Char :=
  if ('a' ≤ c ∧ c ≤ 'z') ∨ ('0' ≤ c ∧ c ≤ '9') ∨ isWsChar c then c else ' '

/-- `normaliseUtterance` (App.tsx lines 440-444): trim, lowercase,
replace every character outside `[a-z0-9\s]` by a space, collapse
whitespace runs to single spaces, trim.  The collapse-and-trim
(`replace(/\s+/g, ' ').trim()`) is embedded as: split on whitespace, drop
empty pieces, re-join with single spaces. -/
def normaliseUtterance (value : String) : String :=
  let lowered := (trimChars value.toList).map Char.toLower
  let cleaned := lowered.map keepLowerAlnumWs
  joinSpace (wordsBy isWsChar (String.mk cleaned))

/-- `TRIGGER_PHRASES` (App.tsx line 419). -/
def TRIGGER_PHRASES : List String :=
  ["hay model", "hey model", "hay, model", "hey, model"]

/-- `STOP_PHRASES` (App.tsx line 420). -/
def STOP_PHRASES : List String :=
  ["model stop", "muddle stop", "model, stop", "muddle, stop"]

/-- `COMMON_SINGLE_WORDS` (App.tsx lines 421-438). -/
def COMMON_SINGLE_WORDS : List String :=
  ["hi", "hello", "hey", "thanks", "thank", "yes", "no", "ok", "okay",
   "test", "testing", "stop", "start", "help", "sure", "please"]

/-- `normalized.split(' ').filter(Boolean)` (App.tsx line 453). -/
def splitTokens (normalized : String) : List String :=
  wordsBy (fun c => c = ' ') normalized

/-- `isLikelyNoise` (App.tsx lines 446-461). -/
def isLikelyNoise (normalized : String) : Bool :=
  if normalized = "" then true
  else if TRIGGER_PHRASES.contains normalized || STOP_PHRASES.contains normalized then false
  else
    match splitTokens normalized with
    | [] => true
    | [w] => !(COMMON_SINGLE_WORDS.contains w)
    | _ => false

/-- Turn-detection configuration payload.  `threshold` is 0.5 in the
source; it is embedded scaled by ten (`thresholdTenths = 5`) to keep the
model in exact arithmetic.  `idleTimeoutMs = none` embeds JS `null`. -/
structure TurnDetectionCfg where
  vadType : String
  thresholdTenths : Nat
  paddingMs : Nat
  silenceMs : Nat
  idleTimeoutMs : Option Nat
  createResponse : Bool
  interruptResponse : Bool
deriving DecidableEq, Repr

/-- `MANUAL_TURN_DETECTION` (App.tsx lines 47-55): server_vad, threshold
0.5, prefix padding 300ms, silence 200ms, idle timeout 6000ms, autonomous
response creation and interruption both off. -/
def MANUAL_TURN_DETECTION : TurnDetectionCfg :=
  { vadType := "server_vad", thresholdTenths := 5, paddingMs := 300,
    silenceMs := 200, idleTimeoutMs := some 6000,
    createResponse := false, interruptResponse := false }

/-- Outbound frames built by the client.  `responseCreate` carries the
instruction text (modalities are `['audio','text']` in every call site);
`sessionUpdate` carries the turn-detection patch; `responseCancel` carries
the targeted response id. -/
inductive Frame where
  | responseCreate (instructions : String)
  | sessionUpdate (turnDetection : TurnDetectionCfg)
  | responseCancel (responseId : String)
deriving DecidableEq, Repr

/-- Observable effects of one operation, in order of occurrence. -/
inductive Eff where
  /-- A frame was sent on the open data channel. -/
  | sent (f : Frame)
  /-- An instruction frame was only logged (`instruction-buffered`): the
  channel was not open and the frame is never delivered later. -/
  | droppedInstruction (f : Frame)
  /-- A session-configuration frame was appended to the pending queue
  (`session-update-buffered`). -/
  | queuedSessionUpdate (f : Frame)
  /-- An utterance was discarded as noise (`ignored-utterance` log). -/
  | ignoredUtterance (text : String)
  /-- The captured text was handed to the action bridge
  (`submitPingRequest` in `exitTestMode`). -/
  | submitPing (text : String)
deriving DecidableEq, Repr

/-- Capture mode, `modeRef` (App.tsx line 102). -/
inductive Mode where
  | normal
  | test
deriving DecidableEq, Repr

/-- The per-session mutable refs of App.tsx as one record:
`modeRef`, `testTranscriptRef`, `lastUserUtteranceRef`,
`turnDetectionDisabledRef`, `allowNextResponseRef`, `currentResponseIdRef`,
`pendingSessionUpdatesRef`, plus the readiness of the data channel
(`dataChannelRef.readyState === 'open'`) and a liveness bit for the session
(cleared only by `stopVoiceSession`). -/
structure AppState where
  mode : Mode
  testTranscript : List String
  lastUserUtterance : Option String
  turnDetectionDisabled : Bool
  allowNextResponse : Bool
  currentResponseId : Option String
  pendingSessionUpdates : List Frame
  channelOpen : Bool
  sessionActive : Bool
deriving DecidableEq, Repr

/-- Fresh session state with an open data channel. -/
def initialOpenState : AppState :=
  { mode := Mode.normal, testTranscript := [], lastUserUtterance := none,
    turnDetectionDisabled := false, allowNextResponse := false,
    currentResponseId := none, pendingSessionUpdates := [],
    channelOpen := true, sessionActive := true }

/-- The instruction string built by `sendRealtimeInstruction`
(App.tsx lines 469-472). -/
def instructionText (text : String) (exact : Bool) : String :=
  if exact then "Respond only in English. Say exactly: \"" ++ text ++ "\"."
  else "Respond only in English. " ++ text

/-- `sendRealtimeInstruction` (App.tsx lines 463-493): build the
`response.create` payload, set `allowNextResponseRef` true, then send it if
the channel is open, otherwise only log it (the frame is dropped, never
queued).  The `content` array built in the source is not part of the sent
payload and is omitted. -/
def sendRealtimeInstruction (s : AppState) (text : String) (exact : Bool) :
    AppState × List Eff :=
  let payload := Frame.responseCreate (instructionText text exact)
  let s1 := { s with allowNextResponse := true }
  if s1.channelOpen then (s1, [Eff.sent payload])
  else (s1, [Eff.droppedInstruction payload])

/-- `sendSessionUpdate` (App.tsx lines 495-509): send the `session.update`
frame if the channel is open, otherwise append it to
`pendingSessionUpdatesRef`. -/
def sendSessionUpdate (s : AppState) (patch : TurnDetectionCfg) :
    AppState × List Eff :=
  let payload := Frame.sessionUpdate patch
  if s.channelOpen then (s, [Eff.sent payload])
  else ({ s with pendingSessionUpdates := s.pendingSessionUpdates ++ [payload] },
        [Eff.queuedSessionUpdate payload])

/-- `sendCancelActiveResponse` (App.tsx lines 511-528, identical in
part_002 lines 900-917): no-op when the channel is not open; target the
argument id, else the tracked id; no-op when neither exists; send
`response.cancel` and clear the tracked id when it equals the target. -/
def sendCancelActiveResponse (s : AppState) (responseId : Option String) :
    AppState × List Eff :=
  if s.channelOpen then
    match responseId.orElse (fun _ => s.currentResponseId) with
    | none => (s, [])
    | some targetId =>
      let s1 := if s.currentResponseId = some targetId
        then { s with currentResponseId := none } else s
      (s1, [Eff.sent (Frame.responseCancel targetId)])
  else (s, [])

/-- `disableAutoResponses` (App.tsx lines 530-539): no-op when already
disabled; otherwise send the manual turn-detection override and mark
disabled. -/
def disableAutoResponses (s : AppState) : AppState × List Eff :=
  if s.turnDetectionDisabled then (s, [])
  else
    let r := sendSessionUpdate s MANUAL_TURN_DETECTION
    ({ r.1 with turnDetectionDisabled := true }, r.2)

/-- `respondNormally` (App.tsx lines 609-611). -/
def respondNormally (s : AppState) (userText : String) : AppState × List Eff :=
  sendRealtimeInstruction s
    ("The user said: " ++ userText ++ ". Respond helpfully and conversationally.")
    false

/-- `enterTestMode` (App.tsx lines 613-620): switch to test mode, reset the
buffer to the raw trigger utterance, disable autonomous turns, cancel any
active response, and issue the fixed exact acknowledgement. -/
def enterTestMode (s : AppState) (rawUtterance : String) : AppState × List Eff :=
  let s1 := { s with mode := Mode.test, testTranscript := [rawUtterance] }
  let r1 := disableAutoResponses s1
  let r2 := sendCancelActiveResponse r1.1 none
  let r3 := sendRealtimeInstruction r2.1 "what do you want to test" true
  (r3.1, r1.2 ++ r2.2 ++ r3.2)

/-- `.join(' ').replace(/\s+/g, ' ').trim()` (App.tsx line 634). -/
def joinCollapse (pieces : List String) : String :=
  joinSpace (wordsBy isWsChar (joinSpace pieces))

/-- `exitTestMode` (App.tsx lines 626-654): trim the buffered pieces, drop
everything up to and including the first piece that normalizes to a trigger
phrase, drop the first piece normalizing to a stop phrase and everything
after it, join the rest with single spaces; reset to normal mode with an
empty buffer; hand a non-empty transcript to the action bridge. -/
def exitTestMode (s : AppState) : AppState × List Eff :=
  let rawPieces := s.testTranscript
  let normalizedPieces := rawPieces.map strTrim
  let bodyStartIndex := normalizedPieces.findIdx?
    (fun v => TRIGGER_PHRASES.contains (normaliseUtterance v))
  let effectivePieces := match bodyStartIndex with
    | none => normalizedPieces
    | some i => normalizedPieces.drop (i + 1)
  let stopIndex := effectivePieces.findIdx?
    (fun v => STOP_PHRASES.contains (normaliseUtterance v))
  let withoutStop := match stopIndex with
    | none => effectivePieces
    | some i => effectivePieces.take i
  let transcript := joinCollapse withoutStop
  let s1 := { s with mode := Mode.normal, testTranscript := [] }
  if transcript ≠ "" then (s1, [Eff.submitPing transcript]) else (s1, [])

/-- `handleRecognizedText` (App.tsx lines 656-694): drop empty and
duplicate utterances; in test mode append the raw utterance and exit on a
stop phrase; in normal mode enter test mode on a trigger phrase, discard
noise, otherwise reply normally. -/
def handleRecognizedText (s : AppState) (utterance : String) :
    AppState × List Eff :=
  if utterance = "" then (s, [])
  else
    let text := strTrim utterance
    if text = "" then (s, [])
    else if s.lastUserUtterance = some text then (s, [])
    else
      let s1 := { s with lastUserUtterance := some text }
      let normalized := normaliseUtterance text
      if s1.mode = Mode.test then
        let s2 := { s1 with testTranscript := s1.testTranscript ++ [utterance] }
        if STOP_PHRASES.contains normalized then exitTestMode s2 else (s2, [])
      else if TRIGGER_PHRASES.contains normalized then enterTestMode s1 utterance
      else if isLikelyNoise normalized then (s1, [Eff.ignoredUtterance text])
      else respondNormally s1 text

/-- Sequential processing of a list of recognized utterances, accumulating
effects in order. -/
def processUtterances (s : AppState) : List String → AppState × List Eff
  | [] => (s, [])
  | u :: rest =>
    let r1 := handleRecognizedText s u
    let r2 := processUtterances r1.1 rest
    (r2.1, r1.2 ++ r2.2)

/-- The texts handed to the action bridge within an effect trace. -/
def submittedTexts (effs : List Eff) : List String :=
  effs.filterMap (fun e => match e with
    | Eff.submitPing t => some t
    | _ => none)

/-- The `response.create` instruction frames occurring in an effect trace,
whether sent on the open channel or dropped with a log entry. -/
def instructionFrames (effs : List Eff) : List Frame :=
  effs.filterMap (fun e => match e with
    | Eff.sent (Frame.responseCreate i) => some (Frame.responseCreate i)
    | Eff.droppedInstruction (Frame.responseCreate i) =>
        some (Frame.responseCreate i)
    | _ => none)

/-- `resetCapture` (App.tsx lines 412-417). -/
def resetCapture (s : AppState) : AppState :=
  { s with mode := Mode.normal, testTranscript := [],
           lastUserUtterance := none, allowNextResponse := false }

/-! ## Earlier iteration of the component (src/unnamed/part_002)

The repository keeps an earlier iteration of the same client.  It adds a
`restoreAutoResponses` operation and cancels unsolicited responses the
moment they are created during capture.  Its refs are embedded as a
separate state record; its `sendCancelActiveResponse` (part_002 lines
900-917) is textually the one of App.tsx. -/

/-- Capture state of the earlier iteration, `captureStateRef`
(part_002 line 499). -/
inductive V2CaptureMode where
  | idle
  | awaiting
  | awaitingTranscription
deriving DecidableEq, Repr

/-- The per-session refs of part_002 used by the claims:
`captureStateRef`, `currentResponseIdRef`, `allowNextResponseRef`,
`transcriptionResponseIdRef`, `transcriptionBufferRef`,
`turnDetectionDisabledRef`, `originalTurnDetectionRef`,
`pendingSessionUpdatesRef`, channel readiness. -/
structure V2State where
  captureMode : V2CaptureMode
  currentResponseId : Option String
  allowNextResponse : Bool
  transcriptionResponseId : Option String
  transcriptionBuffer : String
  turnDetectionDisabled : Bool
  originalTurnDetection : Option TurnDetectionCfg
  pendingSessionUpdates : List Frame
  channelOpen : Bool
deriving DecidableEq, Repr

/-- `sendSessionUpdate` of the earlier iteration (part_002 lines 884-898),
same behaviour as the one of App.tsx. -/
def v2SendSessionUpdate (s : V2State) (patch : TurnDetectionCfg) :
    V2State × List Eff :=
  let payload := Frame.sessionUpdate patch
  if s.channelOpen then (s, [Eff.sent payload])
  else ({ s with pendingSessionUpdates := s.pendingSessionUpdates ++ [payload] },
        [Eff.queuedSessionUpdate payload])

/-- `sendCancelActiveResponse` (part_002 lines 900-917). -/
def v2SendCancelActiveResponse (s : V2State) (responseId : Option String) :
    V2State × List Eff :=
  if s.channelOpen then
    match responseId.orElse (fun _ => s.currentResponseId) with
    | none => (s, [])
    | some targetId =>
      let s1 := if s.currentResponseId = some targetId
        then { s with currentResponseId := none } else s
      (s1, [Eff.sent (Frame.responseCancel targetId)])
  else (s, [])

/-- The override payload of `disableAutoResponses` in part_002 (lines
924-934): same fields as `MANUAL_TURN_DETECTION` but `idle_timeout_ms:
null`. -/
def v2ManualTurnDetection : TurnDetectionCfg :=
  { MANUAL_TURN_DETECTION with idleTimeoutMs := none }

/-- `disableAutoResponses` (part_002 lines 919-936). -/
def v2DisableAutoResponses (s : V2State) : V2State × List Eff :=
  if s.turnDetectionDisabled then (s, [])
  else
    let r := v2SendSessionUpdate s v2ManualTurnDetection
    ({ r.1 with turnDetectionDisabled := true }, r.2)

/-- The permissive default restored when no original configuration was
captured (part_002 lines 947-957): `create_response` and
`interrupt_response` back on, `idle_timeout_ms: null`. -/
def v2DefaultTurnDetection : TurnDetectionCfg :=
  { vadType := "server_vad", thresholdTenths := 5, paddingMs := 300,
    silenceMs := 200, idleTimeoutMs := none,
    createResponse := true, interruptResponse := true }

/-- `restoreAutoResponses` (part_002 lines 938-960): no-op unless the
override is active; otherwise send back the configuration observed at
session start, or the permissive default, and clear the disabled flag. -/
def restoreAutoResponses (s : V2State) : V2State × List Eff :=
  if s.turnDetectionDisabled then
    let patch := match s.originalTurnDetection with
      | some original => original
      | none => v2DefaultTurnDetection
    let r := v2SendSessionUpdate s patch
    ({ r.1 with turnDetectionDisabled := false }, r.2)
  else (s, [])

/-- The `response.created` branch of `handleRealtimeEvent` (part_002 lines
1134-1157): record the id; a locally requested response consumes
`allowNextResponse` (and, while awaiting a transcription, is adopted as
the transcription response); an unsolicited response created while capture
is active (`captureMode = awaiting`) is cancelled by its own id. -/
def v2HandleResponseCreated (s : V2State) (responseId : Option String) :
    V2State × List Eff :=
  let s1 := match responseId with
    | some rid => { s with currentResponseId := some rid }
    | none => s
  if s1.allowNextResponse ∧ s1.captureMode = V2CaptureMode.awaitingTranscription
      ∧ responseId.isSome then
    ({ s1 with allowNextResponse := false,
               transcriptionResponseId := responseId,
               transcriptionBuffer := "" }, [])
  else if s1.allowNextResponse then
    ({ s1 with allowNextResponse := false }, [])
  else
    match s1.captureMode, responseId with
    | V2CaptureMode.awaiting, some rid => v2SendCancelActiveResponse s1 (some rid)
    | _, _ => (s1, [])

/-- The `response.done` branch of `handleRealtimeEvent` (part_002 lines
1222-1228, identical in App.tsx lines 731-738): clear the tracked id only
when it matches the event's id. -/
def v2HandleResponseDone (s : V2State) (responseId : Option String) :
    V2State × List Eff :=
  match responseId with
  | some rid =>
    if s.currentResponseId = some rid
    then ({ s with currentResponseId := none }, [])
    else (s, [])
  | none => (s, [])

/-- Structural embedding of JS `String.prototype.startsWith`: does the
first list start with the second? -/
def startsWithChars : List Char → List Char → Bool
  | _, [] => true
  | [], _ :: _ => false
  | c :: cs, d :: ds => c == d && startsWithChars cs ds

/-- `s.startsWith(pat)`. -/
def strStartsWith (s pat : String) : Bool :=
  startsWithChars s.toList pat.toList

/-- The inbound frames App.tsx dispatches on (`handleRealtimeEvent`,
lines 696-762).  `errorEvent` carries `error.param` (empty string when the
field is absent or not a string); `responseCreated`/`responseDone` carry
`response.id` when it is a string.  `otherEvent` stands for every frame
type the handler ignores, including the transcript-extraction branches
(`response.delta`, item fall-back) that only feed `handleRecognizedText`
with derived strings. -/
inductive RealtimeEvent where
  | errorEvent (param : String)
  | sessionCreated
  | responseCreated (responseId : Option String)
  | responseDone (responseId : Option String)
  | transcriptionCompleted (transcript : String)
  | otherEvent
deriving DecidableEq, Repr

/-- `handleRealtimeEvent` (App.tsx lines 696-762): an `error` frame whose
`error.param` starts with `session.turn_detection` resets the
turn-detection disabled flag and nothing else; `session.created` disables
autonomous turns; `response.created` records the response id and consumes
`allowNextResponse`; `response.done` clears the tracked id when it
matches; a completed input transcription feeds the capture machine. -/
def handleRealtimeEvent (s : AppState) (ev : RealtimeEvent) :
    AppState × List Eff :=
  match ev with
  | RealtimeEvent.errorEvent param =>
    if strStartsWith param "session.turn_detection"
    then ({ s with turnDetectionDisabled := false }, [])
    else (s, [])
  | RealtimeEvent.sessionCreated => disableAutoResponses s
  | RealtimeEvent.responseCreated responseId =>
    let s1 := match responseId with
      | some rid => { s with currentResponseId := some rid }
      | none => s
    let s2 := if s1.allowNextResponse
      then { s1 with allowNextResponse := false } else s1
    (s2, [])
  | RealtimeEvent.responseDone responseId =>
    match responseId with
    | some rid =>
      if s.currentResponseId = some rid
      then ({ s with currentResponseId := none }, [])
      else (s, [])
    | none => (s, [])
  | RealtimeEvent.transcriptionCompleted transcript =>
    if transcript ≠ "" then handleRecognizedText s transcript else (s, [])
  | RealtimeEvent.otherEvent => (s, [])

/-- `flushPendingSessionUpdates` (App.tsx lines 807-817): while the queue
is non-empty and the channel is open, shift the head and send it.  The
channel state cannot change during the loop, so with an open channel the
whole queue is sent once, in order, and emptied; with a closed channel
nothing happens. -/
def flushPendingSessionUpdates (s : AppState) : AppState × List Eff :=
  if s.channelOpen then
    ({ s with pendingSessionUpdates := [] },
     s.pendingSessionUpdates.map Eff.sent)
  else (s, [])

/-- The spec invariant of `CaptureState`: the buffer is non-empty only
while the machine is in test mode. -/
def captureInv (s : AppState) : Prop :=
  s.mode = Mode.normal → s.testTranscript = []

/-- C1: feeding the trigger utterance "hey model", the fragments "my",
"test", "is", "one" and the stop utterance "model stop" from a fresh
normal-mode session ends back in normal mode with an empty buffer, and the
action bridge receives exactly the captured text "my test is one" (trigger
and stop phrase dropped, fragments joined with single spaces). -/
theorem c1_capture_cycle_hey_model :
    (processUtterances initialOpenState
      ["hey model", "my", "test", "is", "one", "model stop"]).1.mode
        = Mode.normal ∧
    (processUtterances initialOpenState
      ["hey model", "my", "test", "is", "one", "model stop"]).1.testTranscript
        = [] ∧
    submittedTexts (processUtterances initialOpenState
      ["hey model", "my", "test", "is", "one", "model stop"]).2
        = ["my test is one"] := by
  decide

/-- C2 counterexample: the utterance "hey model this is the body" does not
make the machine enter test mode with buffer ["this is the body"] — trigger
detection requires the whole normalized utterance to equal a trigger
variant, so this utterance is handled as an ordinary normal-mode
utterance. -/
theorem c2_trigger_with_remainder_counterexample :
    ¬ ((handleRecognizedText initialOpenState
          "hey model this is the body").1.mode = Mode.test ∧
       (handleRecognizedText initialOpenState
          "hey model this is the body").1.testTranscript
         = ["this is the body"]) := by
  decide

/-- C2 amended: "hey model this is the body" is not a trigger — the machine
stays in normal mode with an empty buffer and issues the normal-mode reply
instruction for it; a trigger fires only when the whole normalized
utterance equals a trigger variant, and then the buffer becomes the
one-element list holding the raw trigger utterance. -/
theorem c2_exact_trigger_only :
    (handleRecognizedText initialOpenState
      "hey model this is the body").1.mode = Mode.normal ∧
    (handleRecognizedText initialOpenState
      "hey model this is the body").1.testTranscript = [] ∧
    instructionFrames (handleRecognizedText initialOpenState
      "hey model this is the body").2
      = [Frame.responseCreate (instructionText
          "The user said: hey model this is the body. Respond helpfully and conversationally."
          false)] ∧
    (handleRecognizedText initialOpenState "hey model").1.mode = Mode.test ∧
    (handleRecognizedText initialOpenState "hey model").1.testTranscript
      = ["hey model"] := by
  decide

/-- C3: in the capture-active, no-locally-requested-response state, a
`response.created` event with id A makes the client send `response.cancel`
carrying exactly A and drop the tracked active response immediately; a
later `response.done` for A leaves the tracker (and the whole state)
unchanged. -/
theorem c3_cancel_race_targets_exact_id (s : V2State) (a : String)
    (hcap : s.captureMode = V2CaptureMode.awaiting)
    (hallow : s.allowNextResponse = false)
    (hopen : s.channelOpen = true) :
    (v2HandleResponseCreated s (some a)).2
      = [Eff.sent (Frame.responseCancel a)] ∧
    (v2HandleResponseCreated s (some a)).1.currentResponseId = none ∧
    v2HandleResponseDone (v2HandleResponseCreated s (some a)).1 (some a)
      = ((v2HandleResponseCreated s (some a)).1, []) := by
  simp [v2HandleResponseCreated, v2HandleResponseDone,
        v2SendCancelActiveResponse, hcap, hallow, hopen]

/-- C3 witness at a concrete state and id. -/
theorem c3_cancel_race_witness :
    (v2HandleResponseCreated
      { captureMode := V2CaptureMode.awaiting, currentResponseId := some "stale",
        allowNextResponse := false, transcriptionResponseId := none,
        transcriptionBuffer := "", turnDetectionDisabled := true,
        originalTurnDetection := none, pendingSessionUpdates := [],
        channelOpen := true } (some "resp_A")).2
      = [Eff.sent (Frame.responseCancel "resp_A")] :=
  (c3_cancel_race_targets_exact_id
    { captureMode := V2CaptureMode.awaiting, currentResponseId := some "stale",
      allowNextResponse := false, transcriptionResponseId := none,
      transcriptionBuffer := "", turnDetectionDisabled := true,
      originalTurnDetection := none, pendingSessionUpdates := [],
      channelOpen := true } "resp_A" rfl rfl rfl).1

/-- C6: an inbound `error` frame whose `error.param` starts with
`session.turn_detection` resets the turn-detection disabled flag to false
and changes nothing else (in particular the session stays alive), so a
subsequent `disable()` emits a fresh override frame (one effect) instead of
being a silent no-op. -/
theorem c6_turn_detection_error_resets_flag (s : AppState) (param : String)
    (h : strStartsWith param "session.turn_detection" = true) :
    handleRealtimeEvent s (RealtimeEvent.errorEvent param)
      = ({ s with turnDetectionDisabled := false }, []) ∧
    (handleRealtimeEvent s (RealtimeEvent.errorEvent param)).1.sessionActive
      = s.sessionActive ∧
    (disableAutoResponses
      (handleRealtimeEvent s (RealtimeEvent.errorEvent param)).1).2.length
      = 1 := by
  refine ⟨by simp [handleRealtimeEvent, h], by simp [handleRealtimeEvent, h], ?_⟩
  simp only [handleRealtimeEvent, h, if_true]
  by_cases hopen : s.channelOpen <;>
    simp [disableAutoResponses, sendSessionUpdate, hopen]

/-- C6 witness at a concrete state and parameter. -/
theorem c6_turn_detection_error_witness :
    handleRealtimeEvent
      { initialOpenState with turnDetectionDisabled := true }
      (RealtimeEvent.errorEvent "session.turn_detection.create_response")
      = ({ initialOpenState with turnDetectionDisabled := false }, []) :=
  (c6_turn_detection_error_resets_flag
    { initialOpenState with turnDetectionDisabled := true }
    "session.turn_detection.create_response" (by decide)).1

/-- C7: from a state where the override is not active, calling `disable()`
twice emits exactly one override frame (the second call is a no-op), and
calling `restore()` without a prior `disable()` emits nothing and leaves
the state unchanged. -/
theorem c7_disable_restore_idempotence (s : AppState) (t : V2State)
    (hs : s.turnDetectionDisabled = false)
    (hopen : s.channelOpen = true)
    (ht : t.turnDetectionDisabled = false) :
    (disableAutoResponses s).2
        ++ (disableAutoResponses (disableAutoResponses s).1).2
      = [Eff.sent (Frame.sessionUpdate MANUAL_TURN_DETECTION)] ∧
    restoreAutoResponses t = (t, []) := by
  constructor
  · simp [disableAutoResponses, sendSessionUpdate, hs, hopen]
  · simp [restoreAutoResponses, ht]

/-- C7 witness at concrete states. -/
theorem c7_disable_restore_witness :
    (disableAutoResponses initialOpenState).2
        ++ (disableAutoResponses (disableAutoResponses initialOpenState).1).2
      = [Eff.sent (Frame.sessionUpdate MANUAL_TURN_DETECTION)] :=
  (c7_disable_restore_idempotence initialOpenState
    { captureMode := V2CaptureMode.idle, currentResponseId := none,
      allowNextResponse := false, transcriptionResponseId := none,
      transcriptionBuffer := "", turnDetectionDisabled := false,
      originalTurnDetection := none, pendingSessionUpdates := [],
      channelOpen := true } rfl rfl rfl).1

/-- C8: with the channel not open, an instruction frame is dropped (logged
only, never queued — the pending queue is untouched) while a
session-configuration frame is appended to the FIFO pending queue and not
sent; when the channel is open, flushing sends every queued frame exactly
once in original order and empties the queue. -/
theorem c8_channel_not_ready_semantics (s sOpen : AppState) (text : String)
    (exact : Bool) (patch : TurnDetectionCfg)
    (hclosed : s.channelOpen = false)
    (hopen : sOpen.channelOpen = true) :
    (sendRealtimeInstruction s text exact).2
      = [Eff.droppedInstruction (Frame.responseCreate (instructionText text exact))] ∧
    (sendRealtimeInstruction s text exact).1.pendingSessionUpdates
      = s.pendingSessionUpdates ∧
    (sendSessionUpdate s patch).2
      = [Eff.queuedSessionUpdate (Frame.sessionUpdate patch)] ∧
    (sendSessionUpdate s patch).1.pendingSessionUpdates
      = s.pendingSessionUpdates ++ [Frame.sessionUpdate patch] ∧
    (flushPendingSessionUpdates sOpen).2
      = sOpen.pendingSessionUpdates.map Eff.sent ∧
    (flushPendingSessionUpdates sOpen).1.pendingSessionUpdates = [] := by
  simp [sendRealtimeInstruction, sendSessionUpdate,
        flushPendingSessionUpdates, hclosed, hopen]

/-- C8 witness at concrete states. -/
theorem c8_channel_not_ready_witness :
    (sendSessionUpdate { initialOpenState with channelOpen := false }
        MANUAL_TURN_DETECTION).1.pendingSessionUpdates
      = [Frame.sessionUpdate MANUAL_TURN_DETECTION] ∧
    (flushPendingSessionUpdates
      { initialOpenState with
          pendingSessionUpdates := [Frame.sessionUpdate MANUAL_TURN_DETECTION] }).2
      = [Eff.sent (Frame.sessionUpdate MANUAL_TURN_DETECTION)] := by
  have h := c8_channel_not_ready_semantics
    { initialOpenState with channelOpen := false }
    { initialOpenState with
        pendingSessionUpdates := [Frame.sessionUpdate MANUAL_TURN_DETECTION] }
    "Hello!" true MANUAL_TURN_DETECTION rfl rfl
  exact ⟨h.2.2.2.1, h.2.2.2.2.1⟩

/-- C10: a cancel attempted while the data channel is absent or not open,
or with no id supplied and no id tracked, sends nothing and leaves the
whole state (in particular the tracked active-response id) unchanged. -/
theorem c10_cancel_complete_noop (s : AppState) (responseId : Option String)
    (h : s.channelOpen = false ∨ (responseId = none ∧ s.currentResponseId = none)) :
    sendCancelActiveResponse s responseId = (s, []) := by
  rcases h with h | ⟨h1, h2⟩
  · simp [sendCancelActiveResponse, h]
  · subst h1
    simp [sendCancelActiveResponse, h2, Option.orElse]

/-- C10 witness: closed channel, and open channel with nothing to target. -/
theorem c10_cancel_noop_witness :
    sendCancelActiveResponse { initialOpenState with channelOpen := false }
        (some "resp_A")
      = ({ initialOpenState with channelOpen := false }, []) ∧
    sendCancelActiveResponse initialOpenState none = (initialOpenState, []) :=
  ⟨c10_cancel_complete_noop { initialOpenState with channelOpen := false }
      (some "resp_A") (Or.inl rfl),
   c10_cancel_complete_noop initialOpenState none (Or.inr ⟨rfl, rfl⟩)⟩

/-- The action-bridge submissions distribute over concatenated effect
traces. -/
theorem submittedTexts_append (a b : List Eff) :
    submittedTexts (a ++ b) = submittedTexts a ++ submittedTexts b := by
  simp [submittedTexts, List.filterMap_append]

/-- One normal-mode step without a trigger keeps the machine in normal
mode and hands nothing to the action bridge. -/
theorem handleRecognizedText_normal_no_trigger (s : AppState) (u : String)
    (hmode : s.mode = Mode.normal)
    (hnt : TRIGGER_PHRASES.contains (normaliseUtterance (strTrim u)) = false) :
    (handleRecognizedText s u).1.mode = Mode.normal ∧
    submittedTexts (handleRecognizedText s u).2 = [] := by
  unfold handleRecognizedText respondNormally sendRealtimeInstruction
  split_ifs <;> simp_all [submittedTexts]
  all_goals (split_ifs <;> simp_all)

/-- C4: over any finite utterance sequence in which no utterance
normalizes to a trigger-phrase variant, a normal-mode machine stays in
normal mode and the action bridge's submit operation is never invoked
(instantiating the sequence at every prefix gives the property
throughout). -/
theorem c4_no_trigger_stays_normal (s : AppState) (us : List String)
    (hmode : s.mode = Mode.normal)
    (hns : ∀ u ∈ us,
      TRIGGER_PHRASES.contains (normaliseUtterance (strTrim u)) = false) :
    (processUtterances s us).1.mode = Mode.normal ∧
    submittedTexts (processUtterances s us).2 = [] := by
  induction us generalizing s with
  | nil => simp [processUtterances, submittedTexts, hmode]
  | cons u rest ih =>
    have hu : TRIGGER_PHRASES.contains (normaliseUtterance (strTrim u)) = false :=
      hns u (List.mem_cons_self u rest)
    have hstep := handleRecognizedText_normal_no_trigger s u hmode hu
    have hrest := ih (handleRecognizedText s u).1 hstep.1
      (fun v hv => hns v (List.mem_cons_of_mem u hv))
    refine ⟨by simpa [processUtterances] using hrest.1, ?_⟩
    show submittedTexts ((handleRecognizedText s u).2
      ++ (processUtterances (handleRecognizedText s u).1 rest).2) = []
    rw [submittedTexts_append, hstep.2, hrest.2]
    rfl

/-- C4 witness at a concrete trigger-free sequence. -/
theorem c4_no_trigger_witness :
    (processUtterances initialOpenState ["hello there", "ok"]).1.mode
      = Mode.normal ∧
    submittedTexts
      (processUtterances initialOpenState ["hello there", "ok"]).2 = [] :=
  c4_no_trigger_stays_normal initialOpenState ["hello there", "ok"] rfl
    (by decide)

/-- `sendRealtimeInstruction` never touches the capture fields. -/
theorem sendRealtimeInstruction_capture_fields (s : AppState) (text : String)
    (ex : Bool) :
    (sendRealtimeInstruction s text ex).1.mode = s.mode ∧
    (sendRealtimeInstruction s text ex).1.testTranscript = s.testTranscript := by
  unfold sendRealtimeInstruction
  dsimp only
  split_ifs <;> simp

/-- `sendSessionUpdate` never touches the capture fields. -/
theorem sendSessionUpdate_capture_fields (s : AppState)
    (patch : TurnDetectionCfg) :
    (sendSessionUpdate s patch).1.mode = s.mode ∧
    (sendSessionUpdate s patch).1.testTranscript = s.testTranscript := by
  unfold sendSessionUpdate
  dsimp only
  split_ifs <;> simp

/-- `sendCancelActiveResponse` never touches the capture fields. -/
theorem sendCancelActiveResponse_capture_fields (s : AppState)
    (rid : Option String) :
    (sendCancelActiveResponse s rid).1.mode = s.mode ∧
    (sendCancelActiveResponse s rid).1.testTranscript = s.testTranscript := by
  unfold sendCancelActiveResponse
  cases hc : s.channelOpen
  · simp
  · cases ho : rid.orElse (fun _ => s.currentResponseId)
    · simp [ho]
    · simp only [ho]
      split_ifs <;> simp

/-- `disableAutoResponses` never touches the capture fields. -/
theorem disableAutoResponses_capture_fields (s : AppState) :
    (disableAutoResponses s).1.mode = s.mode ∧
    (disableAutoResponses s).1.testTranscript = s.testTranscript := by
  unfold disableAutoResponses
  split_ifs with h
  · simp
  · dsimp only
    exact ⟨(sendSessionUpdate_capture_fields s MANUAL_TURN_DETECTION).1,
           (sendSessionUpdate_capture_fields s MANUAL_TURN_DETECTION).2⟩

/-- Entering test mode lands in test mode with the raw trigger utterance
as the whole buffer. -/
theorem enterTestMode_fields (s : AppState) (u : String) :
    (enterTestMode s u).1.mode = Mode.test ∧
    (enterTestMode s u).1.testTranscript = [u] := by
  unfold enterTestMode
  dsimp only
  constructor
  · rw [(sendRealtimeInstruction_capture_fields _ _ _).1,
        (sendCancelActiveResponse_capture_fields _ _).1,
        (disableAutoResponses_capture_fields _).1]
  · rw [(sendRealtimeInstruction_capture_fields _ _ _).2,
        (sendCancelActiveResponse_capture_fields _ _).2,
        (disableAutoResponses_capture_fields _).2]

/-- Leaving test mode clears the buffer in the same step that re-enters
normal mode. -/
theorem exitTestMode_resets (s : AppState) :
    (exitTestMode s).1.mode = Mode.normal ∧
    (exitTestMode s).1.testTranscript = [] := by
  unfold exitTestMode
  dsimp only
  split_ifs <;> simp

/-- C5: the invariant "the capture buffer is non-empty only in test mode"
is preserved by utterance processing, by reset and by trigger entry, and
the stop-detection exit clears the buffer in the very step that re-enters
normal mode. -/
theorem c5_capture_buffer_invariant (s : AppState) (u : String)
    (h : captureInv s) :
    captureInv (handleRecognizedText s u).1 ∧
    captureInv (resetCapture s) ∧
    captureInv (enterTestMode s u).1 ∧
    (exitTestMode s).1.mode = Mode.normal ∧
    (exitTestMode s).1.testTranscript = [] := by
  have hexit := exitTestMode_resets
  refine ⟨?_, ?_, ?_, (hexit s).1, (hexit s).2⟩
  · unfold handleRecognizedText respondNormally
    dsimp only
    split_ifs with h1 h2 h3 h4 h5 h6 h7
    · exact h
    · exact h
    · exact h
    · intro _
      exact (hexit _).2
    · intro hm
      simp_all
    · intro hm
      rw [(enterTestMode_fields _ _).1] at hm
      cases hm
    · exact fun hm => h hm
    · intro hm
      rw [(sendRealtimeInstruction_capture_fields _ _ _).1] at hm
      rw [(sendRealtimeInstruction_capture_fields _ _ _).2]
      exact h hm
  · intro _
    simp [resetCapture]
  · intro hm
    rw [(enterTestMode_fields s u).1] at hm
    cases hm

/-- C5 witness: a test-mode state with a populated buffer satisfies the
invariant vacuously, and the exit operation lands in normal mode with the
buffer cleared. -/
theorem c5_capture_buffer_witness :
    (exitTestMode { initialOpenState with
      mode := Mode.test
      testTranscript := ["hey model", "alpha", "model stop"] }).1.mode
      = Mode.normal ∧
    (exitTestMode { initialOpenState with
      mode := Mode.test
      testTranscript := ["hey model", "alpha", "model stop"] }).1.testTranscript
      = [] := by
  have h := c5_capture_buffer_invariant
    { initialOpenState with
      mode := Mode.test
      testTranscript := ["hey model", "alpha", "model stop"] } "bravo"
    (fun hm => Mode.noConfusion hm)
  exact ⟨h.2.2.2.1, h.2.2.2.2⟩

/-- C9: for a fresh (post-dedup) utterance in normal mode: when its
normalized form is a single token outside the short-acknowledgement
allow-list (and not a trigger or stop phrase), no reply instruction is
produced; when its normalized form has two or more tokens and is not a
trigger phrase, exactly the normal-mode reply instruction for it is
produced. -/
theorem c9_noise_filter (s : AppState) (u : String)
    (hmode : s.mode = Mode.normal)
    (hdedup : s.lastUserUtterance ≠ some (strTrim u)) :
    (∀ w, splitTokens (normaliseUtterance (strTrim u)) = [w] →
      COMMON_SINGLE_WORDS.contains w = false →
      TRIGGER_PHRASES.contains (normaliseUtterance (strTrim u)) = false →
      STOP_PHRASES.contains (normaliseUtterance (strTrim u)) = false →
      instructionFrames (handleRecognizedText s u).2 = []) ∧
    (2 ≤ (splitTokens (normaliseUtterance (strTrim u))).length →
      TRIGGER_PHRASES.contains (normaliseUtterance (strTrim u)) = false →
      instructionFrames (handleRecognizedText s u).2
        = [Frame.responseCreate (instructionText
            ("The user said: " ++ strTrim u ++ ". Respond helpfully and conversationally.")
            false)]) := by
  by_cases hu0 : u = ""
  · subst hu0
    constructor
    · intro w hw _ _ _
      rw [show splitTokens (normaliseUtterance (strTrim "")) = ([] : List String) from rfl] at hw
      exact List.noConfusion hw
    · intro hlen _
      rw [show splitTokens (normaliseUtterance (strTrim "")) = ([] : List String) from rfl] at hlen
      simp at hlen
  by_cases ht0 : strTrim u = ""
  · constructor
    · intro w hw _ _ _
      rw [ht0, show splitTokens (normaliseUtterance "") = ([] : List String) from rfl] at hw
      exact List.noConfusion hw
    · intro hlen _
      rw [ht0, show splitTokens (normaliseUtterance "") = ([] : List String) from rfl] at hlen
      simp at hlen
  constructor
  · intro w hw hcw htr hst
    have htr' : normaliseUtterance (strTrim u) ∉ TRIGGER_PHRASES := by
      simpa using htr
    have hnoise : isLikelyNoise (normaliseUtterance (strTrim u)) = true := by
      unfold isLikelyNoise
      by_cases hn0 : normaliseUtterance (strTrim u) = ""
      · simp [hn0]
      · have hcw' : w ∉ COMMON_SINGLE_WORDS := by simpa using hcw
        rw [if_neg hn0, htr, hst, hw]
        simp [hcw']
    simp [handleRecognizedText, hu0, ht0, hdedup, hmode, htr', hnoise,
          instructionFrames]
  · intro hlen htr
    have htr' : normaliseUtterance (strTrim u) ∉ TRIGGER_PHRASES := by
      simpa using htr
    obtain ⟨a, b, r, hsplit⟩ :
        ∃ a b r, splitTokens (normaliseUtterance (strTrim u)) = a :: b :: r := by
      rcases hl : splitTokens (normaliseUtterance (strTrim u)) with _ | ⟨a, _ | ⟨b, r⟩⟩
      · rw [hl] at hlen
        simp at hlen
      · rw [hl] at hlen
        simp at hlen
      · exact ⟨a, b, r, rfl⟩
    have hnoise : isLikelyNoise (normaliseUtterance (strTrim u)) = false := by
      unfold isLikelyNoise
      by_cases hn0 : normaliseUtterance (strTrim u) = ""
      · rw [hn0] at hsplit
        exact List.noConfusion hsplit
      · rw [if_neg hn0, hsplit]
        by_cases hstp : STOP_PHRASES.contains (normaliseUtterance (strTrim u)) <;>
          simp [htr, hstp]
    by_cases hch : s.channelOpen <;>
      simp [handleRecognizedText, respondNormally, sendRealtimeInstruction,
            hu0, ht0, hdedup, hmode, htr', hnoise, hch, instructionFrames]

/-- C9 witness: the single unknown token "zorp" is discarded without a
reply; the two-token utterance "hello there" gets exactly the normal-mode
reply instruction. -/
theorem c9_noise_filter_witness :
    instructionFrames (handleRecognizedText initialOpenState "zorp").2 = [] ∧
    instructionFrames (handleRecognizedText initialOpenState "hello there").2
      = [Frame.responseCreate (instructionText
          "The user said: hello there. Respond helpfully and conversationally."
          false)] := by
  constructor
  · exact (c9_noise_filter initialOpenState "zorp" rfl (by decide)).1
      "zorp" (by decide) (by decide) (by decide) (by decide)
  · exact (c9_noise_filter initialOpenState "hello there" rfl (by decide)).2
      (by decide) (by decide)
